import Mathlib

/-!
Shallow embedding of the woxxy build/validation scripts.

Main source: `work/scripts/flutter_check.py`, the metadata consistency
checker.  The checker is a straight-line Python script: it extracts a
version token from `lib/config/version.dart` and from `pubspec.yaml`,
compares them, then runs a fixed sequence of substring checks over the
Android and iOS configuration artifacts, printing a diagnostic and calling
`exit(1)` at the first failure.

Secondary source: `work/scripts/build_windows.py`, whose
`zip_release_folder` walks the release bundle directory and stores every
file in the archive under its path relative to the bundle root.

Modelling conventions:
* file contents are `String`s (lists of lines where the script calls
  `readlines()`); a file that may be missing is an `Option`, with `none`
  standing for the uncaught `FileNotFoundError` the script would raise;
* Python string operations (`in`, `startswith`, `split`, `strip`,
  `replace`) are reimplemented structurally over `List Char` so that every
  definition reduces in the kernel; the separators the script passes to
  `split`/`replace` are all single characters, so single-character
  versions are faithful;
* `os.walk` results are passed in as an explicit list of
  (root, dirs, files) entries, in the order the walk yields them
  (top-down, parent before children); an empty list models a walk that
  yields nothing (e.g. when the directory does not exist);
* process termination is an `Outcome`: `ok` (exit status 0), `err msg`
  (the diagnostic printed to stdout followed by `exit(1)`), or `crash`
  (an uncaught Python exception such as `FileNotFoundError`/`NameError`);
* filesystem paths in the packager model are lists of path segments, so
  `os.path.join` is list append and `os.path.relpath p base` (with `base`
  a prefix of `p`, the only way the script uses it) drops `base`.
-/

namespace Woxxy

/-! ### Python-style string primitives -/

-- Boolean list-prefix test (model of `str.startswith` at the char level).
def prefixB : List Char → List Char → Bool
  | [], _ => true
  | _ :: _, [] => false
  | a :: as, b :: bs => if a = b then prefixB as bs else false

-- Boolean substring test (model of Python `needle in hay`).
def substrB (needle : List Char) : List Char → Bool
  | [] => prefixB needle []
  | c :: rest => prefixB needle (c :: rest) || substrB needle rest

-- Python `needle in hay` on strings.
def strContains (hay needle : String) : Bool :=
  substrB needle.data hay.data

-- Python `s.startswith(t)`.
def startsWithStr (s t : String) : Bool :=
  prefixB t.data s.data

-- Python `s.split(c)` for a single-character separator: the list of chunks
-- between occurrences of `c` (always nonempty).
def splitChar (c : Char) : List Char → List (List Char)
  | [] => [[]]
  | a :: rest =>
    match splitChar c rest with
    | [] => [[]]
    | cur :: parts => if a = c then [] :: cur :: parts else (a :: cur) :: parts

-- Python `s.split(c)[1]` (the text between the first and second occurrence
-- of `c`; the script only evaluates this after checking `c in s`).
def splitGet1 (s : String) (c : Char) : String :=
  ⟨((splitChar c s.data).drop 1).headD []⟩

-- Characters stripped by Python `str.strip()` (ASCII whitespace).
def pySpace (c : Char) : Bool :=
  c = ' ' || c = '\t' || c = '\n' || c = '\x0b' || c = '\x0c' || c = '\r'

-- Python `s.strip()`.
def pyStrip (s : String) : String :=
  ⟨((s.data.dropWhile pySpace).reverse.dropWhile pySpace).reverse⟩

-- Python `s.split(".")` on the package identifier.
def splitDots (s : String) : List String :=
  (splitChar '.' s.data).map fun l => ⟨l⟩

-- Python `s.replace(".", "/")` (single-character pattern, so a charwise map).
def replaceDotSlash (s : String) : String :=
  ⟨s.data.map fun ch => if ch = '.' then '/' else ch⟩

/-! ### Data model of a `flutter_check.py` run -/

-- Command-line flags (argparse `--skip-ios`, `--skip-android`, `--skip-kotlin`).
structure Args where
  skipIos : Bool
  skipAndroid : Bool
  skipKotlin : Bool
deriving DecidableEq

-- The identity JSON: required "name" and "package", optional "ios-package".
structure AppInfo where
  name : String
  package : String
  iosPackage : Option String
deriving DecidableEq

-- One `(root, dirs, files)` triple yielded by
-- `os.walk("android/app/src/main/kotlin/")`.
structure WalkEntry where
  root : String
  dirs : List String
  files : List String
deriving DecidableEq

-- Contents of every file the script may open.  `none` = file missing
-- (opening it raises `FileNotFoundError`).  `main_activity` is the content
-- of `android/app/src/main/kotlin/<package with dots replaced by slashes>/MainActivity.kt`.
structure Files where
  version_dart : Option (List String)
  pubspec : Option (List String)
  android_manifest : Option String
  android_debug_manifest : Option String
  kotlin_walk : List WalkEntry
  main_activity : Option String
  build_gradle : Option String
  info_plist : Option String
  project_pbxproj : Option String
deriving DecidableEq

-- Process outcome: `ok` = fell through all checks (exit 0); `err m` =
-- printed diagnostic `m` and called `exit(1)`; `crash` = uncaught exception.
inductive Outcome where
  | ok : Outcome
  | err (msg : String) : Outcome
  | crash : Outcome
deriving DecidableEq

-- Sequencing of straight-line script fragments: a failure or crash in the
-- first fragment makes everything after it unreachable.
def Outcome.andThen : Outcome → Outcome → Outcome
  | .ok, k => k
  | .err m, _ => .err m
  | .crash, _ => .crash

-- One `if not <cond>: print(msg); exit(1)` step.
def check (cond : Bool) (msg : String) : Outcome :=
  if cond then .ok else .err msg

-- One `open(...)` call: missing file = uncaught `FileNotFoundError`.
def readF {α : Type} (o : Option α) (k : α → Outcome) : Outcome :=
  match o with
  | none => .crash
  | some v => k v

/-! ### Diagnostics printed by `flutter_check.py` (verbatim, with the
newline between consecutive `print` calls made explicit) -/

def versionErrMsg (vd vp : String) : String :=
  "Error: version number in version.dart and pubspec.yaml are different\n       version.dart: "
    ++ vd ++ "\n       pubspec.yaml: " ++ vp

def nameMainMsg : String :=
  "Error: app name not found in main / AndroidManifest.xml (android:label)\n       check: android/app/src/main/AndroidManifest.xml"

def nameDebugMsg : String :=
  "Error: app name not found in debug / AndroidManifest.xml (android:label)\n       check: android/app/src/debug/AndroidManifest.xml"

def pkgMainMsg : String :=
  "Error: package name not found in main / AndroidManifest.xml (package)\n       check: android/app/src/main/AndroidManifest.xml"

def pkgDebugMsg : String :=
  "Error: package name not found in debug / AndroidManifest.xml (package)\n       check: android/app/src/debug/AndroidManifest.xml"

def dirMsg (d : String) : String :=
  "Error: package name not found in folder structure (android/app/src/main/kotlin/" ++ d ++ ")"

def mainActivityMissingMsg : String :=
  "Error: MainActivity.kt not found in android/app/src/main/kotlin/"

def pkgMainActivityMsg (pkg : String) : String :=
  "Error: package name not found in MainActivity.kt (package " ++ pkg ++ ")"

-- `dname` as computed in the script:
-- `"android/app/src/main/kotlin/%s" % app_info["package"].replace(".", "/")`.
def dname (info : AppInfo) : String :=
  "android/app/src/main/kotlin/" ++ replaceDotSlash info.package

def ffaMsg (info : AppInfo) : String :=
  "Error: FlutterFragmentActivity not found in MainActivity.kt\n       check: android/app/src/main/kotlin/"
    ++ dname info ++ "/MainActivity.kt"

-- Remediation snippet printed when `keystoreProperties` is absent from
-- `android/app/build.gradle` (the script's triple-quoted string).
def keystoreSnippet : String :=
  "\n    Open android/app/build.gradle and add the following lines before the android \x7b ... \x7d block:\n\n    def keystoreProperties = new Properties()\n    def keystorePropertiesFile = rootProject.file(\x27key.properties\x27)\n    if (keystorePropertiesFile.exists()) \x7b\n        keystoreProperties.load(new FileInputStream(keystorePropertiesFile))\n    \x7d\n    "

def keystoreMsg : String :=
  "Error: keystoreProperties not found in android/app/build.gradle\n" ++ keystoreSnippet

-- Remediation snippet printed when `signingConfigs {` is absent.
def signingSnippet : String :=
  "\n    Open android/app/build.gradle and add the following lines inside the android \x7b ... \x7d block,\n    DELETE buildTypes \x7b ... \x7d block and replace everything with:\n\n        signingConfigs \x7b\n        release \x7b\n            keyAlias keystoreProperties[\x27keyAlias\x27]\n            keyPassword keystoreProperties[\x27keyPassword\x27]\n            storeFile keystoreProperties[\x27storeFile\x27] ? file(keystoreProperties[\x27storeFile\x27]) : null\n            storePassword keystoreProperties[\x27storePassword\x27]\n        \x7d\n        \x7d\n\n        buildTypes \x7b\n            release \x7b\n                signingConfig signingConfigs.release\n            \x7d\n        \x7d\n\n    "

def signingMsg : String :=
  "Error: signingConfigs not found in android/app/build.gradle\n" ++ signingSnippet

def pkgGradleMsg (pkg : String) : String :=
  "Error: package name not found in android/app/build.gradle (applicationId " ++ pkg ++ ")"

def versionCodeMsg : String :=
  "Error: versionCode must be a real number in android/app/build.gradle\n       check: android/app/build.gradle  - change flutterVersionCode.toInteger() to a real number"

def plistMsg : String :=
  "Error: app name not found in Info.plist (CFBundleDisplayName / CFBundleName)\n       check: ios/Runner/Info.plist"

def pbxMsg (pname : String) : String :=
  "Error: app name \x27" ++ pname
    ++ "\x27 not found in ios/Runner.xcodeproj/project.pbxproj (PRODUCT_NAME and PRODUCT_BUNDLE_IDENTIFIER)"

/-! ### Version-token extraction (lines 51-67 of `flutter_check.py`) -/

-- VERSION_DART: scan the lines of `lib/config/version.dart`; at the first
-- line containing "APP_VERSION", take the text between the first pair of
-- single quotes (else double quotes, else leave the default "") and stop.
def extractVersionDart : List String → String
  | [] => ""
  | line :: rest =>
    if strContains line "APP_VERSION" then
      if strContains line "\x27" then splitGet1 line '\x27'
      else if strContains line "\"" then splitGet1 line '"'
      else ""
    else extractVersionDart rest

-- VERSION_PUBSPEC: scan the lines of `pubspec.yaml`; at the first line
-- starting with "version:", take `line.split(":")[1].strip()` and stop.
def extractVersionPubspec : List String → String
  | [] => ""
  | line :: rest =>
    if startsWithStr line "version:" then pyStrip (splitGet1 line ':')
    else extractVersionPubspec rest

-- Lines 51-73: read both version files, extract both tokens, compare them
-- with plain string equality, and on mismatch print both values and exit 1.
def versionOutcome (fs : Files) : Outcome :=
  readF fs.version_dart fun dartLines =>
  readF fs.pubspec fun pubspecLines =>
  let vd := extractVersionDart dartLines
  let vp := extractVersionPubspec pubspecLines
  check (vd == vp) (versionErrMsg vd vp)

/-! ### Kotlin folder-structure checks (lines 109-154) -/

-- Inner loop `for dir in dirs: if dir not in split_package: ... exit(1)`.
def checkDirs (sp : List String) : List String → Outcome
  | [] => .ok
  | d :: rest => if sp.contains d then checkDirs sp rest else .err (dirMsg d)

-- Outer loop `for root, dirs, files in android_dir_tree`.
def checkWalk (sp : List String) : List WalkEntry → Outcome
  | [] => .ok
  | e :: rest => (checkDirs sp e.dirs).andThen (checkWalk sp rest)

-- The whole `if not args.skip_kotlin:` block.  After the walk loop the
-- script consults the loop variable `files`, i.e. the files of the LAST
-- entry the walk yielded; an empty walk leaves `files` unbound (`NameError`,
-- modelled as `crash`).  It then opens `<dname>/MainActivity.kt` (missing
-- file = `FileNotFoundError`, modelled as `crash`) and requires the package
-- identifier and "FlutterFragmentActivity" to occur in its contents.
def kotlinOutcome (info : AppInfo) (fs : Files) : Outcome :=
  let sp := splitDots info.package
  (checkWalk sp fs.kotlin_walk).andThen
    (readF fs.kotlin_walk.getLast? fun lastE =>
      (check (lastE.files.contains "MainActivity.kt") mainActivityMissingMsg).andThen
        (readF fs.main_activity fun mac =>
          (check (strContains mac info.package) (pkgMainActivityMsg info.package)).andThen
            (check (strContains mac "FlutterFragmentActivity") (ffaMsg info))))

/-! ### Android phase (lines 82-218) -/

def androidOutcome (a : Args) (info : AppInfo) (fs : Files) : Outcome :=
  if a.skipAndroid then .ok
  else
    readF fs.android_manifest fun android_manifest =>
    (check (strContains android_manifest info.name) nameMainMsg).andThen
      (readF fs.android_debug_manifest fun android_debug_manifest =>
      -- line 90 of the script tests `android_manifest` again here, not
      -- `android_debug_manifest`, although the diagnostic names the debug
      -- manifest; the embedding reproduces that.
      (check (strContains android_manifest info.name) nameDebugMsg).andThen
        ((check (strContains android_manifest info.package) pkgMainMsg).andThen
          ((check (strContains android_debug_manifest info.package) pkgDebugMsg).andThen
            ((if a.skipKotlin then Outcome.ok else kotlinOutcome info fs).andThen
              (readF fs.build_gradle fun build_gradle =>
              (check (strContains build_gradle "keystoreProperties") keystoreMsg).andThen
                ((check (strContains build_gradle "signingConfigs \x7b") signingMsg).andThen
                  ((check (strContains build_gradle info.package) (pkgGradleMsg info.package)).andThen
                    (check (!strContains build_gradle "flutterVersionCode.toInteger()") versionCodeMsg))))))))

/-! ### iOS phase (lines 221-243) -/

def iosOutcome (a : Args) (info : AppInfo) (fs : Files) : Outcome :=
  if a.skipIos then .ok
  else
    readF fs.info_plist fun info_plist =>
    (check (strContains info_plist info.name) plistMsg).andThen
      (let pname := info.iosPackage.getD info.package
       readF fs.project_pbxproj fun project_pbxproj =>
       check (strContains project_pbxproj pname) (pbxMsg pname))

-- The whole script, as run after argument parsing: version check first
-- (unconditionally), then the Android phase, then the iOS phase.
def flutter_check (a : Args) (info : AppInfo) (fs : Files) : Outcome :=
  (versionOutcome fs).andThen ((androidOutcome a info fs).andThen (iosOutcome a info fs))

/-! ### The run as a sequential list of checks

`runChecks` is first-failure semantics over a list of (condition, diagnostic)
pairs: conditions are evaluated in order, the first false one aborts with its
diagnostic, and the run succeeds exactly when every condition holds.
`checkList` enumerates, in program order, the checks a given run executes
(skipped phases contribute nothing; entries after an unreadable file are cut
off, which is only observable in runs that crash).
-/

def runChecks : List (Bool × String) → Outcome
  | [] => .ok
  | (b, m) :: rest => (check b m).andThen (runChecks rest)

-- Check-list analogue of `readF`: a file the run could not read contributes
-- no checks (such runs crash, and are outside the no-crash correspondence).
def readL {α : Type} (o : Option α) (k : α → List (Bool × String)) : List (Bool × String) :=
  match o with
  | none => []
  | some v => k v

def versionPairs (fs : Files) : List (Bool × String) :=
  readL fs.version_dart fun dl =>
  readL fs.pubspec fun pl =>
  let vd := extractVersionDart dl
  let vp := extractVersionPubspec pl
  [(vd == vp, versionErrMsg vd vp)]

def kotlinPairs (info : AppInfo) (fs : Files) : List (Bool × String) :=
  let sp := splitDots info.package
  (fs.kotlin_walk.flatMap fun e => e.dirs.map fun d => (sp.contains d, dirMsg d)) ++
    (readL fs.kotlin_walk.getLast? fun lastE =>
      (lastE.files.contains "MainActivity.kt", mainActivityMissingMsg) ::
        readL fs.main_activity fun mac =>
          [(strContains mac info.package, pkgMainActivityMsg info.package),
           (strContains mac "FlutterFragmentActivity", ffaMsg info)])

def androidPairs (a : Args) (info : AppInfo) (fs : Files) : List (Bool × String) :=
  if a.skipAndroid then []
  else
    readL fs.android_manifest fun m =>
    (strContains m info.name, nameMainMsg) ::
      readL fs.android_debug_manifest fun dm =>
      (strContains m info.name, nameDebugMsg) ::
      (strContains m info.package, pkgMainMsg) ::
      (strContains dm info.package, pkgDebugMsg) ::
        ((if a.skipKotlin then [] else kotlinPairs info fs) ++
          readL fs.build_gradle fun g =>
            [(strContains g "keystoreProperties", keystoreMsg),
             (strContains g "signingConfigs \x7b", signingMsg),
             (strContains g info.package, pkgGradleMsg info.package),
             (!strContains g "flutterVersionCode.toInteger()", versionCodeMsg)])

def iosPairs (a : Args) (info : AppInfo) (fs : Files) : List (Bool × String) :=
  if a.skipIos then []
  else
    readL fs.info_plist fun pl =>
    (strContains pl info.name, plistMsg) ::
      (let pname := info.iosPackage.getD info.package
       readL fs.project_pbxproj fun pb =>
         [(strContains pb pname, pbxMsg pname)])

def checkList (a : Args) (info : AppInfo) (fs : Files) : List (Bool × String) :=
  versionPairs fs ++ androidPairs a info fs ++ iosPairs a info fs

/-! ### Desktop packager (`zip_release_folder` in `build_windows.py`)

The release bundle is a finite directory tree; directories carry named
subtrees and named files with contents.
-/

inductive FsTree where
  | node (dirs : List (String × FsTree)) (files : List (String × String)) : FsTree

-- One `(root, dirs, files)` triple of `os.walk` over the bundle; `files`
-- keeps the contents alongside the names (the script reads each file it
-- archives), and paths are lists of segments.
structure BWalkEntry where
  root : List String
  dirs : List String
  files : List (String × String)

-- `os.walk(path)`: yield the current directory, then recurse into each
-- subdirectory in order (top-down).
mutual

def osWalk (path : List String) : FsTree → List BWalkEntry
  | .node dirs files => ⟨path, dirs.map (·.1), files⟩ :: osWalkList path dirs

def osWalkList (path : List String) : List (String × FsTree) → List BWalkEntry
  | [] => []
  | (d, t) :: rest => osWalk (path ++ [d]) t ++ osWalkList path rest

end

-- `os.path.relpath p base` in the only configuration the script uses
-- (`base` is a prefix of `p`): drop the base segments.
def relpath (p base : List String) : List String :=
  p.drop base.length

-- `zip_release_folder`: walk BASE_DIR and store every file under
-- `os.path.relpath(os.path.join(root, file), BASE_DIR)`.  The result is the
-- list of archive entries (internal path, file content) in write order.
def zip_release_folder (BASE_DIR : List String) (t : FsTree) : List (List String × String) :=
  (osWalk BASE_DIR t).flatMap fun e =>
    e.files.map fun fc => (relpath (e.root ++ [fc.1]) BASE_DIR, fc.2)

-- Modelled from the spec: "the produced archive's internal relative paths
-- must mirror the release bundle's directory structure exactly".  The
-- bundle's relative file tree: every file of the bundle, listed under its
-- path relative to the bundle root, with its content.
mutual

def bundleListing : FsTree → List (List String × String)
  | .node dirs files => (files.map fun fc => ([fc.1], fc.2)) ++ bundleListingList dirs

def bundleListingList : List (String × FsTree) → List (List String × String)
  | [] => []
  | (d, t) :: rest =>
    ((bundleListing t).map fun pc => (d :: pc.1, pc.2)) ++ bundleListingList rest

end

/-! ### Basic lemmas about outcomes and check sequences -/

theorem andThen_ok_left (o : Outcome) : Outcome.ok.andThen o = o := rfl

theorem andThen_err (m : String) (o : Outcome) : (Outcome.err m).andThen o = .err m := rfl

theorem andThen_crash (o : Outcome) : Outcome.crash.andThen o = .crash := rfl

theorem andThen_ok_right (o : Outcome) : o.andThen .ok = o := by
  cases o <;> rfl

theorem andThen_assoc (a b c : Outcome) :
    (a.andThen b).andThen c = a.andThen (b.andThen c) := by
  cases a <;> rfl

-- Congruence for sequencing under a no-crash hypothesis: to identify two
-- sequenced computations it is enough to identify the halves, and each half
-- only has to be identified when it itself does not crash (a crash in the
-- first half is excluded, and a failure there makes the second half
-- unreachable).
theorem andThen_congr {x x' y y' : Outcome} (h : x.andThen y ≠ .crash)
    (hx : x ≠ .crash → x = x') (hy : y ≠ .crash → y = y') :
    x.andThen y = x'.andThen y' := by
  have hxc : x ≠ .crash := by
    intro hc
    exact h (by rw [hc]; rfl)
  rw [← hx hxc]
  cases x with
  | ok =>
    rw [andThen_ok_left] at h ⊢
    rw [andThen_ok_left, hy h]
  | err m => rfl
  | crash => exact absurd rfl hxc

theorem runChecks_append (l₁ l₂ : List (Bool × String)) :
    runChecks (l₁ ++ l₂) = (runChecks l₁).andThen (runChecks l₂) := by
  induction l₁ with
  | nil => rfl
  | cons p rest ih =>
    obtain ⟨b, m⟩ := p
    simp only [List.cons_append, runChecks, List.append_eq, ih, andThen_assoc]

theorem runChecks_eq_ok_iff (l : List (Bool × String)) :
    runChecks l = .ok ↔ ∀ c ∈ l, c.1 = true := by
  induction l with
  | nil => simp [runChecks]
  | cons p rest ih =>
    obtain ⟨b, m⟩ := p
    cases b with
    | true => simpa [runChecks, check, andThen_ok_left] using ih
    | false => simp [runChecks, check, andThen_err]

theorem runChecks_err_decomp (l : List (Bool × String)) (m : String)
    (h : runChecks l = .err m) :
    ∃ pre post, l = pre ++ (false, m) :: post ∧ ∀ c ∈ pre, c.1 = true := by
  induction l with
  | nil => simp [runChecks] at h
  | cons p rest ih =>
    obtain ⟨b, m'⟩ := p
    cases b with
    | true =>
      rw [runChecks] at h
      simp only [check, if_pos, andThen_ok_left] at h
      obtain ⟨pre, post, hE, hA⟩ := ih h
      exact ⟨(true, m') :: pre, post, by simp [hE], by simpa using hA⟩
    | false =>
      rw [runChecks] at h
      simp only [check, if_neg, andThen_err] at h
      rw [show m' = m from by injection h] at *
      exact ⟨[], rest, rfl, by simp⟩

/-! ### Substring lemmas -/

theorem prefixB_self_append (m r : List Char) : prefixB m (m ++ r) = true := by
  induction m with
  | nil => rfl
  | cons a as ih => simp [prefixB, ih]

theorem substrB_of_prefixB (m h : List Char) (hp : prefixB m h = true) :
    substrB m h = true := by
  cases h with
  | nil => simpa [substrB] using hp
  | cons c rest => simp [substrB, hp]

theorem substrB_mid (l m r : List Char) : substrB m (l ++ (m ++ r)) = true := by
  induction l with
  | nil => exact substrB_of_prefixB _ _ (prefixB_self_append m r)
  | cons c l ih => simp [substrB, ih]

theorem strData_append (a b : String) : (a ++ b).data = a.data ++ b.data := by
  cases a
  cases b
  rfl

-- A string occurs in any string whose character list contains it as a
-- contiguous block.
theorem strContains_mid (x b : String) (l r : List Char)
    (hx : x.data = l ++ (b.data ++ r)) : strContains x b = true := by
  simp [strContains, hx, substrB_mid]

/-! ### Each phase agrees with its check list (on non-crashing runs) -/

theorem versionOutcome_eq (fs : Files) (h : versionOutcome fs ≠ .crash) :
    versionOutcome fs = runChecks (versionPairs fs) := by
  cases hd : fs.version_dart with
  | none => exact absurd (by simp [versionOutcome, readF, hd]) h
  | some dl =>
    cases hp : fs.pubspec with
    | none => exact absurd (by simp [versionOutcome, readF, hd, hp]) h
    | some pl =>
      simp [versionOutcome, versionPairs, readF, readL, hd, hp, runChecks, andThen_ok_right]

theorem checkDirs_eq (sp : List String) (ds : List String) :
    checkDirs sp ds = runChecks (ds.map fun d => (sp.contains d, dirMsg d)) := by
  induction ds with
  | nil => rfl
  | cons d rest ih =>
    cases hc : sp.contains d with
    | false =>
      simp only [checkDirs, runChecks, check, hc, List.map_cons]
      rfl
    | true =>
      simp only [checkDirs, runChecks, check, hc, List.map_cons, ih]
      rfl

theorem checkWalk_eq (sp : List String) (w : List WalkEntry) :
    checkWalk sp w
      = runChecks (w.flatMap fun e => e.dirs.map fun d => (sp.contains d, dirMsg d)) := by
  induction w with
  | nil => rfl
  | cons e rest ih =>
    simp [checkWalk, List.flatMap_cons, runChecks_append, checkDirs_eq, ih]

theorem kotlinOutcome_eq (info : AppInfo) (fs : Files)
    (h : kotlinOutcome info fs ≠ .crash) :
    kotlinOutcome info fs = runChecks (kotlinPairs info fs) := by
  unfold kotlinOutcome at h ⊢
  unfold kotlinPairs
  rw [runChecks_append]
  refine andThen_congr h (fun _ => checkWalk_eq _ _) (fun h2 => ?_)
  cases hL : fs.kotlin_walk.getLast? with
  | none =>
    rw [hL] at h2
    exact absurd rfl h2
  | some lastE =>
    rw [hL] at h2
    simp only [readF] at h2
    simp only [readF, readL]
    rw [runChecks]
    refine andThen_congr h2 (fun _ => rfl) (fun h3 => ?_)
    cases hM : fs.main_activity with
    | none =>
      rw [hM] at h3
      exact absurd rfl h3
    | some mac =>
      simp [readF, readL, runChecks, andThen_ok_right]

theorem androidOutcome_eq (a : Args) (info : AppInfo) (fs : Files)
    (h : androidOutcome a info fs ≠ .crash) :
    androidOutcome a info fs = runChecks (androidPairs a info fs) := by
  by_cases hsk : a.skipAndroid
  · simp [androidOutcome, androidPairs, hsk, runChecks]
  · unfold androidOutcome at h ⊢
    unfold androidPairs
    rw [if_neg hsk] at h ⊢
    rw [if_neg hsk]
    cases hm : fs.android_manifest with
    | none =>
      rw [hm] at h
      exact absurd rfl h
    | some m =>
      rw [hm] at h
      simp only [readF] at h
      simp only [readF, readL]
      rw [runChecks]
      refine andThen_congr h (fun _ => rfl) (fun h2 => ?_)
      cases hdm : fs.android_debug_manifest with
      | none =>
        rw [hdm] at h2
        exact absurd rfl h2
      | some dm =>
        rw [hdm] at h2
        simp only [readF] at h2
        simp only [readF, readL]
        rw [runChecks]
        refine andThen_congr h2 (fun _ => rfl) (fun h3 => ?_)
        rw [runChecks]
        refine andThen_congr h3 (fun _ => rfl) (fun h4 => ?_)
        rw [runChecks]
        refine andThen_congr h4 (fun _ => rfl) (fun h5 => ?_)
        rw [runChecks_append]
        refine andThen_congr h5 (fun hK => ?_) (fun h6 => ?_)
        · by_cases hk : a.skipKotlin
          · simp [hk, runChecks]
          · rw [if_neg hk] at hK ⊢
            rw [if_neg hk]
            exact kotlinOutcome_eq info fs hK
        · cases hg : fs.build_gradle with
          | none =>
            rw [hg] at h6
            exact absurd rfl h6
          | some g =>
            simp [readF, readL, runChecks, andThen_ok_right]

theorem iosOutcome_eq (a : Args) (info : AppInfo) (fs : Files)
    (h : iosOutcome a info fs ≠ .crash) :
    iosOutcome a info fs = runChecks (iosPairs a info fs) := by
  by_cases hsk : a.skipIos
  · simp [iosOutcome, iosPairs, hsk, runChecks]
  · unfold iosOutcome at h ⊢
    unfold iosPairs
    rw [if_neg hsk] at h ⊢
    rw [if_neg hsk]
    cases hp : fs.info_plist with
    | none =>
      rw [hp] at h
      exact absurd rfl h
    | some pl =>
      rw [hp] at h
      simp only [readF] at h
      simp only [readF, readL]
      rw [runChecks]
      refine andThen_congr h (fun _ => rfl) (fun h2 => ?_)
      cases hb : fs.project_pbxproj with
      | none =>
        rw [hb] at h2
        exact absurd rfl h2
      | some pb =>
        simp [readF, readL, runChecks, andThen_ok_right]

theorem flutter_check_eq (a : Args) (info : AppInfo) (fs : Files)
    (h : flutter_check a info fs ≠ .crash) :
    flutter_check a info fs = runChecks (checkList a info fs) := by
  unfold flutter_check at h ⊢
  unfold checkList
  rw [List.append_assoc, runChecks_append, runChecks_append]
  refine andThen_congr h (fun hv => versionOutcome_eq fs hv) (fun h2 => ?_)
  exact andThen_congr h2 (fun ha => androidOutcome_eq a info fs ha)
    (fun hi => iosOutcome_eq a info fs hi)

/-! ### The packager stores every file under its bundle-relative path -/

mutual

theorem osWalk_listing (base rel : List String) (t : FsTree) :
    ((osWalk (base ++ rel) t).flatMap fun e =>
        e.files.map fun fc => (relpath (e.root ++ [fc.1]) base, fc.2))
      = (bundleListing t).map fun pc => (rel ++ pc.1, pc.2) := by
  match t with
  | .node dirs files =>
    rw [osWalk, bundleListing, List.flatMap_cons, List.map_append,
      osWalkList_listing base rel dirs, List.map_map]
    congr 1
    apply List.map_congr_left
    intro fc _
    simp [relpath, List.append_assoc, List.drop_left']

theorem osWalkList_listing (base rel : List String) (l : List (String × FsTree)) :
    ((osWalkList (base ++ rel) l).flatMap fun e =>
        e.files.map fun fc => (relpath (e.root ++ [fc.1]) base, fc.2))
      = (bundleListingList l).map fun pc => (rel ++ pc.1, pc.2) := by
  match l with
  | [] => rfl
  | (d, t) :: rest =>
    rw [osWalkList, bundleListingList, List.flatMap_append, List.map_append,
      osWalkList_listing base rel rest, List.map_map]
    congr 1
    rw [show (base ++ rel) ++ [d] = base ++ (rel ++ [d]) from (List.append_assoc ..),
      osWalk_listing base (rel ++ [d]) t]
    apply List.map_congr_left
    intro pc _
    simp

end

/-! ### Version-token extraction lemmas -/

theorem extractVersionDart_append (pre rest : List String)
    (h : ∀ l ∈ pre, strContains l "APP_VERSION" = false) :
    extractVersionDart (pre ++ rest) = extractVersionDart rest := by
  induction pre with
  | nil => rfl
  | cons l pre ih =>
    have hl : strContains l "APP_VERSION" = false := h l (List.mem_cons_self l pre)
    rw [List.cons_append]
    simp only [extractVersionDart, hl, Bool.false_eq_true, if_false]
    exact ih fun x hx => h x (List.mem_cons_of_mem l hx)

theorem extractVersionPubspec_append (pre rest : List String)
    (h : ∀ l ∈ pre, startsWithStr l "version:" = false) :
    extractVersionPubspec (pre ++ rest) = extractVersionPubspec rest := by
  induction pre with
  | nil => rfl
  | cons l pre ih =>
    have hl : startsWithStr l "version:" = false := h l (List.mem_cons_self l pre)
    rw [List.cons_append]
    simp only [extractVersionPubspec, hl, Bool.false_eq_true, if_false]
    exact ih fun x hx => h x (List.mem_cons_of_mem l hx)

theorem versionErrMsg_contains (vd vp : String) :
    strContains (versionErrMsg vd vp) vd = true ∧
      strContains (versionErrMsg vd vp) vp = true := by
  constructor
  · apply strContains_mid _ _
      ("Error: version number in version.dart and pubspec.yaml are different\n       version.dart: ".data)
      ("\n       pubspec.yaml: ".data ++ vp.data)
    simp [versionErrMsg, strData_append, List.append_assoc]
  · apply strContains_mid _ _
      ("Error: version number in version.dart and pubspec.yaml are different\n       version.dart: ".data
        ++ vd.data ++ "\n       pubspec.yaml: ".data)
      []
    simp [versionErrMsg, strData_append, List.append_assoc]

/-! ### Claims about the version check -/

/-- C1: the version token is taken from the first line of `version.dart`
containing the APP_VERSION marker and from the first line of `pubspec.yaml`
starting with "version:" (earlier lines without the marker are irrelevant);
the run proceeds past the version check exactly when the two extracted
tokens are equal under plain string equality; and on any differing pair the
check stops with exit status 1 after printing the diagnostic that carries
both values. -/
theorem claim1_version_consistency :
    (∀ pre line post, (∀ l ∈ pre, strContains l "APP_VERSION" = false) →
        strContains line "APP_VERSION" = true →
        extractVersionDart (pre ++ line :: post) = extractVersionDart [line]) ∧
    (∀ pre line post, (∀ l ∈ pre, startsWithStr l "version:" = false) →
        startsWithStr line "version:" = true →
        extractVersionPubspec (pre ++ line :: post) = extractVersionPubspec [line]) ∧
    (∀ fs dl pl, fs.version_dart = some dl → fs.pubspec = some pl →
      ((versionOutcome fs = Outcome.ok ↔
          extractVersionDart dl = extractVersionPubspec pl) ∧
       (extractVersionDart dl ≠ extractVersionPubspec pl →
          versionOutcome fs
            = Outcome.err (versionErrMsg (extractVersionDart dl) (extractVersionPubspec pl)) ∧
          strContains (versionErrMsg (extractVersionDart dl) (extractVersionPubspec pl))
              (extractVersionDart dl) = true ∧
          strContains (versionErrMsg (extractVersionDart dl) (extractVersionPubspec pl))
              (extractVersionPubspec pl) = true))) := by
  refine ⟨?_, ?_, ?_⟩
  · intro pre line post hpre hline
    rw [extractVersionDart_append pre (line :: post) hpre]
    simp [extractVersionDart, hline]
  · intro pre line post hpre hline
    rw [extractVersionPubspec_append pre (line :: post) hpre]
    simp [extractVersionPubspec, hline]
  · intro fs dl pl hd hp
    have hout : versionOutcome fs
        = check (extractVersionDart dl == extractVersionPubspec pl)
            (versionErrMsg (extractVersionDart dl) (extractVersionPubspec pl)) := by
      simp [versionOutcome, readF, hd, hp]
    by_cases hvv : extractVersionDart dl = extractVersionPubspec pl
    · exact ⟨by simp [hout, check, hvv], fun hne => absurd hvv hne⟩
    · have hb : (extractVersionDart dl == extractVersionPubspec pl) = false :=
        beq_eq_false_iff_ne.mpr hvv
      refine ⟨by simp [hout, check, hb, hvv], fun _ => ?_⟩
      exact ⟨by simp [hout, check, hb],
        (versionErrMsg_contains _ _).1, (versionErrMsg_contains _ _).2⟩

theorem claim1_witness :
    (∀ l ∈ (["// header"] : List String), strContains l "APP_VERSION" = false) ∧
    strContains "const String APP_VERSION = \x271.2.3\x27;" "APP_VERSION" = true ∧
    extractVersionDart ["// header", "const String APP_VERSION = \x271.2.3\x27;"]
      = extractVersionDart ["const String APP_VERSION = \x271.2.3\x27;"] :=
  ⟨by decide, by decide,
    claim1_version_consistency.1 ["// header"]
      "const String APP_VERSION = \x271.2.3\x27;" [] (by decide) (by decide)⟩

/-- C9: the version check is unconditional: for every run, with any
combination of skip flags, differing version tokens abort the whole run
with exit status 1 and the diagnostic that reports both values. -/
theorem claim9_version_check_unconditional (a : Args) (info : AppInfo) (fs : Files)
    (dl pl : List String) (hd : fs.version_dart = some dl) (hp : fs.pubspec = some pl)
    (hne : extractVersionDart dl ≠ extractVersionPubspec pl) :
    flutter_check a info fs
      = Outcome.err (versionErrMsg (extractVersionDart dl) (extractVersionPubspec pl)) ∧
    strContains (versionErrMsg (extractVersionDart dl) (extractVersionPubspec pl))
        (extractVersionDart dl) = true ∧
    strContains (versionErrMsg (extractVersionDart dl) (extractVersionPubspec pl))
        (extractVersionPubspec pl) = true := by
  have hb : (extractVersionDart dl == extractVersionPubspec pl) = false :=
    beq_eq_false_iff_ne.mpr hne
  refine ⟨?_, (versionErrMsg_contains _ _).1, (versionErrMsg_contains _ _).2⟩
  simp [flutter_check, versionOutcome, readF, hd, hp, check, hb, andThen_err]

def c9Fs : Files :=
  { version_dart := some ["const String APP_VERSION = \x271.0.1\x27;"]
    pubspec := some ["version: 1.0.0\n"]
    android_manifest := none
    android_debug_manifest := none
    kotlin_walk := []
    main_activity := none
    build_gradle := none
    info_plist := none
    project_pbxproj := none }

theorem claim9_witness :
    flutter_check ⟨true, true, true⟩ ⟨"N", "p", none⟩ c9Fs
      = Outcome.err
          (versionErrMsg (extractVersionDart ["const String APP_VERSION = \x271.0.1\x27;"])
            (extractVersionPubspec ["version: 1.0.0\n"])) :=
  (claim9_version_check_unconditional ⟨true, true, true⟩ ⟨"N", "p", none⟩ c9Fs
    ["const String APP_VERSION = \x271.0.1\x27;"] ["version: 1.0.0\n"]
    rfl rfl (by decide)).1

/-- C10: if `version.dart` has no APP_VERSION line at all, or its
APP_VERSION lines contain neither a single nor a double quote, and
`pubspec.yaml` has no line starting with "version:", then both extracted
tokens are the empty string and the version check passes vacuously. -/
theorem claim10_missing_markers_vacuous (fs : Files) (dl pl : List String)
    (hd : fs.version_dart = some dl) (hp : fs.pubspec = some pl)
    (h1 : ∀ l ∈ dl, strContains l "APP_VERSION" = true →
        strContains l "\x27" = false ∧ strContains l "\"" = false)
    (h2 : ∀ l ∈ pl, startsWithStr l "version:" = false) :
    extractVersionDart dl = "" ∧ extractVersionPubspec pl = "" ∧
      versionOutcome fs = Outcome.ok := by
  have hdart : extractVersionDart dl = "" := by
    clear hd hp h2
    induction dl with
    | nil => rfl
    | cons l rest ih =>
      cases hm : strContains l "APP_VERSION" with
      | false =>
        simp only [extractVersionDart, hm, Bool.false_eq_true, if_false]
        exact ih fun x hx hmx => h1 x (List.mem_cons_of_mem l hx) hmx
      | true =>
        obtain ⟨hq1, hq2⟩ := h1 l (List.mem_cons_self l rest) hm
        simp [extractVersionDart, hm, hq1, hq2]
  have hpub : extractVersionPubspec pl = "" := by
    clear hd hp h1 hdart
    induction pl with
    | nil => rfl
    | cons l rest ih =>
      have hl : startsWithStr l "version:" = false := h2 l (List.mem_cons_self l rest)
      simp only [extractVersionPubspec, hl, Bool.false_eq_true, if_false]
      exact ih fun x hx => h2 x (List.mem_cons_of_mem l hx)
  refine ⟨hdart, hpub, ?_⟩
  simp [versionOutcome, readF, hd, hp, hdart, hpub, check]

theorem claim10_witness :
    extractVersionDart ["// no version here", "APP_VERSION has no quote"] = "" ∧
    extractVersionPubspec ["name: woxxy"] = "" ∧
    versionOutcome
      { version_dart := some ["// no version here", "APP_VERSION has no quote"]
        pubspec := some ["name: woxxy"]
        android_manifest := none
        android_debug_manifest := none
        kotlin_walk := []
        main_activity := none
        build_gradle := none
        info_plist := none
        project_pbxproj := none } = Outcome.ok :=
  claim10_missing_markers_vacuous _
    ["// no version here", "APP_VERSION has no quote"] ["name: woxxy"]
    rfl rfl (by decide) (by decide)

/-! ### Claims C2 and C3: two slips in the Android checks

Line 90 of `flutter_check.py` re-tests `android_manifest` (the release
manifest) where its own diagnostic says it is checking the debug manifest,
and the `MainActivity.kt` existence test reads the loop-leaked `files`
variable, i.e. the file list of the LAST directory `os.walk` visited,
although the comment says "Check if MainActivity.kt is in the correct
folder".  The concrete runs below exhibit both.
-/

def c2Args : Args := ⟨true, false, true⟩

def c2Info : AppInfo := ⟨"Woxxy", "com.example.woxxy", none⟩

def c2Fs : Files :=
  { version_dart := some ["const String APP_VERSION = \x271.0.0\x27;"]
    pubspec := some ["version: 1.0.0\n"]
    android_manifest := some "android:label=\"Woxxy\" package=\"com.example.woxxy\""
    android_debug_manifest := some "package=\"com.example.woxxy\""
    kotlin_walk := []
    main_activity := none
    build_gradle := some "keystoreProperties signingConfigs \x7b applicationId com.example.woxxy"
    info_plist := none
    project_pbxproj := none }

/-- C2: the code does NOT enforce the claim.  In this run the Android phase
is enabled, the debug manifest does not contain the app name "Woxxy", yet
the whole run exits 0, because line 90 of the script re-tests the release
manifest instead of the debug manifest it just read.  Per the claim (and
the script\x27s own diagnostic text) this run should have exited 1 with the
debug-manifest message. -/
theorem claim2_debug_manifest_name_bug :
    c2Args.skipAndroid = false ∧
    c2Fs.android_debug_manifest = some "package=\"com.example.woxxy\"" ∧
    strContains "package=\"com.example.woxxy\"" c2Info.name = false ∧
    flutter_check c2Args c2Info c2Fs = Outcome.ok := by
  refine ⟨rfl, rfl, by decide, by decide⟩

def c3Args : Args := ⟨true, false, false⟩

def c3Info : AppInfo := ⟨"Appo", "a.b", none⟩

def c3Mac : String :=
  "package a.b\nimport io.flutter.embedding.android.FlutterFragmentActivity\nclass MainActivity: FlutterFragmentActivity()"

def c3Fs : Files :=
  { version_dart := some ["const String APP_VERSION = \x271.0.0\x27;"]
    pubspec := some ["version: 1.0.0\n"]
    android_manifest := some "android:label=\"Appo\" package=\"a.b\""
    android_debug_manifest := some "package=\"a.b\""
    kotlin_walk :=
      [⟨"android/app/src/main/kotlin/", ["a", "b"], []⟩,
       ⟨"android/app/src/main/kotlin/a", ["b"], []⟩,
       ⟨"android/app/src/main/kotlin/a/b", [], ["MainActivity.kt"]⟩,
       ⟨"android/app/src/main/kotlin/b", [], []⟩]
    main_activity := some c3Mac
    build_gradle := some "keystoreProperties signingConfigs \x7b applicationId a.b"
    info_plist := none
    project_pbxproj := none }

/-- C3: the code does NOT enforce the claim as stated.  In this run every
directory segment under the kotlin source root is a component of the
package identifier "a.b", `MainActivity.kt` exists exactly at the walk
entry whose root is `dname` (dots of the package replaced by slashes) and
its contents contain both the package identifier and
"FlutterFragmentActivity" — yet the run exits 1 complaining that
`MainActivity.kt` is missing, because the script consults the file list of
the last directory the walk visited (the empty sibling `b/`) instead of
the package directory. -/
theorem claim3_kotlin_last_dir_bug :
    (∀ e ∈ c3Fs.kotlin_walk, ∀ d ∈ e.dirs, (splitDots c3Info.package).contains d = true) ∧
    (∃ e ∈ c3Fs.kotlin_walk, e.root = dname c3Info ∧
        e.files.contains "MainActivity.kt" = true) ∧
    c3Fs.main_activity = some c3Mac ∧
    strContains c3Mac c3Info.package = true ∧
    strContains c3Mac "FlutterFragmentActivity" = true ∧
    flutter_check c3Args c3Info c3Fs = Outcome.err mainActivityMissingMsg := by
  refine ⟨by decide, by decide, rfl, by decide, by decide, by decide⟩

/-! ### Claim C4: sequential first-failure semantics -/

/-- C4: on every run that does not end in an uncaught exception, the
checker exits 0 exactly when every executed check passes; otherwise it
stops at the first failing check, printing that check\x27s diagnostic and
exiting 1, with no later check executed and no aggregation of failures. -/
theorem claim4_first_failure (a : Args) (info : AppInfo) (fs : Files)
    (h : flutter_check a info fs ≠ Outcome.crash) :
    flutter_check a info fs = runChecks (checkList a info fs) ∧
    (flutter_check a info fs = Outcome.ok ↔ ∀ c ∈ checkList a info fs, c.1 = true) ∧
    (∀ m, flutter_check a info fs = Outcome.err m →
      ∃ pre post, checkList a info fs = pre ++ (false, m) :: post ∧
        ∀ c ∈ pre, c.1 = true) := by
  have h1 := flutter_check_eq a info fs h
  refine ⟨h1, ?_, ?_⟩
  · rw [h1]
    exact runChecks_eq_ok_iff _
  · intro m hm
    rw [h1] at hm
    exact runChecks_err_decomp _ m hm

def c4Fs : Files :=
  { version_dart := some ["const String APP_VERSION = \x271.0.0\x27;"]
    pubspec := some ["version: 1.0.0\n"]
    android_manifest := none
    android_debug_manifest := none
    kotlin_walk := []
    main_activity := none
    build_gradle := none
    info_plist := none
    project_pbxproj := none }

theorem claim4_witness :
    flutter_check ⟨true, true, true⟩ ⟨"N", "p", none⟩ c4Fs
      = runChecks (checkList ⟨true, true, true⟩ ⟨"N", "p", none⟩ c4Fs) :=
  (claim4_first_failure ⟨true, true, true⟩ ⟨"N", "p", none⟩ c4Fs (by decide)).1

/-! ### Claim C5: iOS package-identifier selection -/

/-- C5: with iOS checks enabled and the earlier phases passing, the
project-file check searches `project.pbxproj` for the "ios-package" value
when that key is present and for the "package" value otherwise; absence of
that substring stops the run with exit 1 and the corresponding diagnostic,
presence lets it complete. -/
theorem claim5_ios_package_selection (a : Args) (info : AppInfo) (fs : Files)
    (pl pb : String)
    (hskip : a.skipIos = false)
    (hv : versionOutcome fs = Outcome.ok)
    (ha : androidOutcome a info fs = Outcome.ok)
    (hpl : fs.info_plist = some pl)
    (hname : strContains pl info.name = true)
    (hpb : fs.project_pbxproj = some pb) :
    (info.iosPackage = none →
      ((strContains pb info.package = true → flutter_check a info fs = Outcome.ok) ∧
       (strContains pb info.package = false →
          flutter_check a info fs = Outcome.err (pbxMsg info.package)))) ∧
    (∀ s, info.iosPackage = some s →
      ((strContains pb s = true → flutter_check a info fs = Outcome.ok) ∧
       (strContains pb s = false →
          flutter_check a info fs = Outcome.err (pbxMsg s)))) := by
  have hfc : flutter_check a info fs = iosOutcome a info fs := by
    simp [flutter_check, hv, ha, andThen_ok_left]
  constructor
  · intro hip
    constructor
    · intro hc
      simp [hfc, iosOutcome, hskip, readF, hpl, hpb, hname, check, hip, hc, andThen_ok_left]
    · intro hc
      simp [hfc, iosOutcome, hskip, readF, hpl, hpb, hname, check, hip, hc, andThen_ok_left]
  · intro s hip
    constructor
    · intro hc
      simp [hfc, iosOutcome, hskip, readF, hpl, hpb, hname, check, hip, hc, andThen_ok_left]
    · intro hc
      simp [hfc, iosOutcome, hskip, readF, hpl, hpb, hname, check, hip, hc, andThen_ok_left]

def c5Fs : Files :=
  { version_dart := some ["const String APP_VERSION = \x271.0.0\x27;"]
    pubspec := some ["version: 1.0.0\n"]
    android_manifest := none
    android_debug_manifest := none
    kotlin_walk := []
    main_activity := none
    build_gradle := none
    info_plist := some "CFBundleDisplayName Appy"
    project_pbxproj := some "PRODUCT_BUNDLE_IDENTIFIER com.x.y" }

theorem claim5_witness :
    flutter_check ⟨false, true, true⟩ ⟨"Appy", "com.x.y", none⟩ c5Fs = Outcome.ok :=
  ((claim5_ios_package_selection ⟨false, true, true⟩ ⟨"Appy", "com.x.y", none⟩ c5Fs
      "CFBundleDisplayName Appy" "PRODUCT_BUNDLE_IDENTIFIER com.x.y"
      rfl (by decide) (by decide) rfl (by decide) rfl).1 rfl).1 (by decide)

/-! ### Claim C6: skip flags bypass their platform entirely -/

/-- C6: a skip flag fully disables its platform: with the Android-skip
flag the Android phase yields no check at all and the run outcome is
invariant under arbitrary replacement of every Android artifact (content
or absence); likewise for the iOS-skip flag and the iOS artifacts. -/
theorem claim6_skip_flags_bypass (a : Args) (info : AppInfo) (fs fs2 : Files) :
    (a.skipAndroid = true →
      androidOutcome a info fs = Outcome.ok ∧
      (fs2.version_dart = fs.version_dart → fs2.pubspec = fs.pubspec →
       fs2.info_plist = fs.info_plist → fs2.project_pbxproj = fs.project_pbxproj →
       flutter_check a info fs2 = flutter_check a info fs)) ∧
    (a.skipIos = true →
      iosOutcome a info fs = Outcome.ok ∧
      (fs2.version_dart = fs.version_dart → fs2.pubspec = fs.pubspec →
       fs2.android_manifest = fs.android_manifest →
       fs2.android_debug_manifest = fs.android_debug_manifest →
       fs2.kotlin_walk = fs.kotlin_walk → fs2.main_activity = fs.main_activity →
       fs2.build_gradle = fs.build_gradle →
       flutter_check a info fs2 = flutter_check a info fs)) := by
  constructor
  · intro hsk
    have hao : ∀ g : Files, androidOutcome a info g = Outcome.ok := fun g => by
      simp [androidOutcome, hsk]
    refine ⟨hao fs, fun e1 e2 e3 e4 => ?_⟩
    simp [flutter_check, hao, versionOutcome, iosOutcome, e1, e2, e3, e4]
  · intro hsk
    have hio : ∀ g : Files, iosOutcome a info g = Outcome.ok := fun g => by
      simp [iosOutcome, hsk]
    refine ⟨hio fs, fun e1 e2 e3 e4 e5 e6 e7 => ?_⟩
    simp [flutter_check, hio, versionOutcome, androidOutcome, kotlinOutcome,
      e1, e2, e3, e4, e5, e6, e7]

def c6FsA : Files :=
  { version_dart := some ["const String APP_VERSION = \x271.0.0\x27;"]
    pubspec := some ["version: 1.0.0\n"]
    android_manifest := none
    android_debug_manifest := none
    kotlin_walk := []
    main_activity := none
    build_gradle := none
    info_plist := none
    project_pbxproj := none }

def c6FsB : Files :=
  { c6FsA with
    android_manifest := some "completely unrelated garbage"
    android_debug_manifest := some "more garbage"
    kotlin_walk := [⟨"android/app/src/main/kotlin/", ["wrong"], []⟩]
    build_gradle := some "no signing directives at all" }

theorem claim6_witness :
    androidOutcome ⟨true, true, true⟩ ⟨"N", "p", none⟩ c6FsB = Outcome.ok ∧
    flutter_check ⟨true, true, true⟩ ⟨"N", "p", none⟩ c6FsB
      = flutter_check ⟨true, true, true⟩ ⟨"N", "p", none⟩ c6FsA :=
  ⟨((claim6_skip_flags_bypass ⟨true, true, true⟩ ⟨"N", "p", none⟩ c6FsB c6FsB).1 rfl).1,
   ((claim6_skip_flags_bypass ⟨true, true, true⟩ ⟨"N", "p", none⟩ c6FsA c6FsB).1 rfl).2
     rfl rfl rfl rfl⟩

/-! ### Claim C7: gradle signing-configuration probes -/

/-- C7: with Android checks enabled and every check before the gradle
probes passing (the kotlin folder-structure phase either skipped or
passing), `android/app/build.gradle` is probed for the opaque substrings
"keystoreProperties" and "signingConfigs \x7b"; if either is absent the
run exits 1 with a diagnostic that embeds the corresponding remediation
snippet for the operator. -/
theorem claim7_gradle_signing (a : Args) (info : AppInfo) (fs : Files)
    (m dm g : String)
    (hsk : a.skipAndroid = false)
    (hk : a.skipKotlin = true ∨ kotlinOutcome info fs = Outcome.ok)
    (hv : versionOutcome fs = Outcome.ok)
    (hm : fs.android_manifest = some m) (hdm : fs.android_debug_manifest = some dm)
    (hg : fs.build_gradle = some g)
    (h1 : strContains m info.name = true) (h2 : strContains m info.package = true)
    (h3 : strContains dm info.package = true) :
    (strContains g "keystoreProperties" = false →
       flutter_check a info fs = Outcome.err keystoreMsg ∧
       keystoreMsg = "Error: keystoreProperties not found in android/app/build.gradle\n"
         ++ keystoreSnippet) ∧
    (strContains g "keystoreProperties" = true →
     strContains g "signingConfigs \x7b" = false →
       flutter_check a info fs = Outcome.err signingMsg ∧
       signingMsg = "Error: signingConfigs not found in android/app/build.gradle\n"
         ++ signingSnippet) := by
  have hkot : (if a.skipKotlin = true then Outcome.ok else kotlinOutcome info fs)
      = Outcome.ok := by
    cases hk with
    | inl hk1 => simp [hk1]
    | inr hk2 => by_cases hb : a.skipKotlin = true <;> simp [hb, hk2]
  constructor
  · intro hks
    refine ⟨?_, rfl⟩
    simp [flutter_check, hv, andThen_ok_left, androidOutcome, hsk, hkot, readF,
      hm, hdm, hg, check, h1, h2, h3, hks, andThen_err]
  · intro hks hsc
    refine ⟨?_, rfl⟩
    simp [flutter_check, hv, andThen_ok_left, androidOutcome, hsk, hkot, readF,
      hm, hdm, hg, check, h1, h2, h3, hks, hsc, andThen_err]

def c7Fs : Files :=
  { version_dart := some ["const String APP_VERSION = \x271.0.0\x27;"]
    pubspec := some ["version: 1.0.0\n"]
    android_manifest := some "android:label=\"Appy\" package=\"c.d\""
    android_debug_manifest := some "package=\"c.d\""
    kotlin_walk :=
      [⟨"android/app/src/main/kotlin/", ["c"], []⟩,
       ⟨"android/app/src/main/kotlin/c", ["d"], []⟩,
       ⟨"android/app/src/main/kotlin/c/d", [], ["MainActivity.kt"]⟩]
    main_activity :=
      some "package c.d\nclass MainActivity: FlutterFragmentActivity()"
    build_gradle := some "nothing relevant here"
    info_plist := none
    project_pbxproj := none }

theorem claim7_witness :
    flutter_check ⟨true, false, false⟩ ⟨"Appy", "c.d", none⟩ c7Fs
      = Outcome.err keystoreMsg :=
  ((claim7_gradle_signing ⟨true, false, false⟩ ⟨"Appy", "c.d", none⟩ c7Fs
      "android:label=\"Appy\" package=\"c.d\"" "package=\"c.d\"" "nothing relevant here"
      rfl (Or.inr (by decide)) (by decide) rfl rfl rfl
      (by decide) (by decide) (by decide)).1
    (by decide)).1

/-! ### Claim C8: the packager mirrors the bundle tree -/

/-- C8: `zip_release_folder` stores every file of the release bundle under
its path relative to the bundle root: the archive entry list equals the
bundle\x27s relative file listing (path and content), so extracting the
archive reproduces the bundle\x27s relative file tree. -/
theorem claim8_zip_mirror (BASE_DIR : List String) (t : FsTree) :
    zip_release_folder BASE_DIR t = bundleListing t := by
  have h := osWalk_listing BASE_DIR [] t
  rw [List.append_nil] at h
  rw [zip_release_folder, h]
  simp

end Woxxy
